import Mathlib

/-!
# ComfyUI REST client: address parsing, submission, history and interrupt

A shallow embedding of `contrib/plugins/ComfyUI/common/comfyui_client.cpp`.

* A `std::string` is a list of characters (`Str`).
* `Client::Impl` is a record; a member function that assigns fields and may
  throw returns the record as it stands when control leaves the function,
  together with the exception (if any).
* The two libraries the client calls, `nlohmann::json` (parse / dump) and
  `httplib` (Get / Post), are parameters: `JsonLib` and `Transport`.
-/

namespace ComfyUI

/-- A `std::string`. -/
abbrev Str := List Char

deriving instance DecidableEq for Except

/-! ## The standard-library functions used by the client -/

/-- The value `std::string::find(char)` returns: `none` is `npos`. -/
def find (c : Char) : Str → Option Nat
  | [] => none
  | x :: xs => if x = c then some 0 else (find c xs).map (· + 1)

/-- The call `s.substr(pos)` for `pos ≤ s.size()`. -/
def substrFrom (s : Str) (pos : Nat) : Str := s.drop pos

/-- The call `s.substr(0, n)`. -/
def substrTo (s : Str) (n : Nat) : Str := s.take n

/-- The C locale's `isspace`. -/
def isspace (c : Char) : Bool :=
  c.toNat = 32 || (9 ≤ c.toNat && c.toNat ≤ 13)

/-- The C locale's `isdigit`. -/
def isdigit (c : Char) : Bool :=
  48 ≤ c.toNat && c.toNat ≤ 57

/-- Value of a run of decimal digits, most significant first. -/
def digitsVal (ds : Str) : Nat :=
  ds.foldl (fun acc c => 10 * acc + (c.toNat - 48)) 0

/-- Splits an optional sign off the front: `true` for a leading `-`. -/
def splitSign : Str → Bool × Str
  | '-' :: r => (true, r)
  | '+' :: r => (false, r)
  | s => (false, s)

/-- The run of decimal digits `strtol` consumes in base 10: leading white
space is skipped, one optional sign is read, then digits as long as there are
any. -/
def numeralDigits (s : Str) : Str :=
  (splitSign (s.dropWhile isspace)).2.takeWhile isdigit

/-- Whether the numeral `strtol` reads carries a minus sign. -/
def numeralNeg (s : Str) : Bool :=
  (splitSign (s.dropWhile isspace)).1

/-- The value of the signed numeral `strtol` reads. -/
def numeralValue (s : Str) : Int :=
  if numeralNeg s then - (digitsVal (numeralDigits s) : Int)
  else (digitsVal (numeralDigits s) : Int)

/-- The mathematical value `strtol(s, &end, 10)` converts, `none` when no
conversion is performed (`end == s`). -/
def strtol (s : Str) : Option Int :=
  if numeralDigits s = [] then none else some (numeralValue s)

/-- The two exceptions `std::stoi` throws. -/
inductive StoiError
  | invalid_argument
  | out_of_range
  deriving DecidableEq, Repr

def INT_MIN : Int := -2147483648
def INT_MAX : Int := 2147483647

/-- The call `std::stoi(s)`: `std::invalid_argument` when no conversion could
be performed, `std::out_of_range` when the value does not fit an `int`. -/
def stoi (s : Str) : Except StoiError Int :=
  match strtol s with
  | none => .error .invalid_argument
  | some v => if v < INT_MIN ∨ INT_MAX < v then .error .out_of_range else .ok v

/-- The character of a decimal digit. -/
def digitChar (d : Nat) : Char := Char.ofNat (48 + d)

/-- Decimal digits of `n`, most significant first (`fuel` bounds the number of
digits). -/
def decDigits : Nat → Nat → Str
  | 0, _ => []
  | fuel + 1, n =>
    if n < 10 then [digitChar n] else decDigits fuel (n / 10) ++ [digitChar (n % 10)]

/-- The call `std::to_string(int)`. -/
def to_string (v : Int) : Str :=
  if v < 0 then '-' :: decDigits (v.natAbs + 1) v.natAbs
  else decDigits (v.natAbs + 1) v.natAbs

/-! ## `Client::Impl` -/

/-- The fields of `Client::Impl`. -/
structure Impl where
  hostname : Str
  port : Int
  inputDir : Str
  outputDir : Str
  clientId : Str
  deriving DecidableEq, Repr

/-- The member `Impl::parseServerAddress(addr)`: the record when control leaves
the function and the exception thrown, if any.  With a colon in `addr` the
hostname is assigned first and `std::stoi` runs after it. -/
def Impl.parseServerAddress (self : Impl) (addr : Str) : Impl × Except StoiError Unit :=
  match find ':' addr with
  | some colonPos =>
    let self1 := { self with hostname := substrTo addr colonPos }
    match stoi (substrFrom addr (colonPos + 1)) with
    | .ok p => ({ self1 with port := p }, .ok ())
    | .error e => (self1, .error e)
  | none => ({ self with hostname := addr, port := 8188 }, .ok ())

/-- The member `Impl::getServerAddress()`. -/
def Impl.getServerAddress (self : Impl) : Str :=
  self.hostname ++ ":".toList ++ to_string self.port

/-- The record the constructor `Impl(addr)` starts from: the strings are
default-constructed, the `int` member has no initialiser and `uninit` is
whatever it holds. -/
def Impl.blank (uninit : Int) : Impl :=
  { hostname := [], port := uninit, inputDir := [], outputDir := [], clientId := [] }

/-- The constructor `Impl(addr)`.  An exception leaves no object. -/
def Impl.new (uninit : Int) (addr : Str) : Except StoiError Impl :=
  match Impl.parseServerAddress (Impl.blank uninit) addr with
  | (self, .ok ()) => .ok self
  | (_, .error e) => .error e

/-- Lower-case hexadecimal digits of `n`, most significant first, as
`ss << std::hex << n` writes a non-negative `int`. -/
def hexDigits : Nat → Nat → Str
  | 0, _ => []
  | fuel + 1, n =>
    if n < 16 then [Nat.digitChar n] else hexDigits fuel (n / 16) ++ [Nat.digitChar (n % 16)]

/-- The member `Client::generateClientId()`; `dis i` is the value of the
`i`-th call `dis(gen)`. -/
def generateClientId (dis : Nat → Nat) : Str :=
  "ofx_client_".toList ++ (List.range 16).flatMap (fun i => hexDigits (dis i + 1) (dis i))

/-- A `Client` (it owns exactly one `Impl`). -/
structure Client where
  m_impl : Impl
  deriving DecidableEq, Repr

/-- The constructor `Client(serverAddress)`. -/
def Client.new (uninit : Int) (dis : Nat → Nat) (serverAddress : Str) : Except StoiError Client :=
  match Impl.new uninit serverAddress with
  | .ok impl => .ok { m_impl := { impl with clientId := generateClientId dis } }
  | .error e => .error e

/-- The member `Client::setServerAddress(address)`: the client after the call
and the exception that escapes it, if any. -/
def Client.setServerAddress (self : Client) (address : Str) : Client × Except StoiError Unit :=
  let r := self.m_impl.parseServerAddress address
  ({ m_impl := r.1 }, r.2)

/-- The member `Client::getServerAddress()`. -/
def Client.getServerAddress (self : Client) : Str :=
  self.m_impl.getServerAddress

/-! ## `nlohmann::json` values and the two library parameters -/

/-- A `nlohmann::json` value.  An object is a `std::map`, kept as the list of
its members; a floating-point number and a binary value are kept by their
bits and bytes. -/
inductive Json where
  | null
  | object (members : List (Str × Json))
  | array (elems : List Json)
  | string (s : Str)
  | boolean (b : Bool)
  | number_integer (n : Int)
  | number_unsigned (n : Nat)
  | number_float (bits : Nat)
  | binary (bytes : List Nat)

/-- The member `json::type_name()`. -/
def Json.type_name : Json → Str
  | .null => "null".toList
  | .object _ => "object".toList
  | .array _ => "array".toList
  | .string _ => "string".toList
  | .boolean _ => "boolean".toList
  | .binary _ => "binary".toList
  | _ => "number".toList

/-- The lookup `m_value.object->find(key)` in the members of an object. -/
def members_find (key : Str) : List (Str × Json) → Option Json
  | [] => none
  | (k, v) :: rest => if k = key then some v else members_find key rest

/-- The member `json::contains(key)`: true for an object that has the key. -/
def Json.contains (j : Json) (key : Str) : Bool :=
  match j with
  | .object members => (members_find key members).isSome
  | _ => false

/-- The value `j[key]` of the non-const `operator[]`: a null value becomes an
object, an object yields the member (a null one when the key is new), any
other value throws `type_error.305`. -/
def Json.index (j : Json) (key : Str) : Except Str Json :=
  match j with
  | .null => .ok .null
  | .object members =>
    match members_find key members with
    | some v => .ok v
    | none => .ok .null
  | other =>
    .error ("[json.exception.type_error.305] cannot use operator[] with a string argument with ".toList
      ++ other.type_name)

/-- The call `j.get<std::string>()`: throws `type_error.302` for a value that
is not a string. -/
def Json.get_string (j : Json) : Except Str Str :=
  match j with
  | .string s => .ok s
  | other =>
    .error ("[json.exception.type_error.302] type must be string, but is ".toList
      ++ other.type_name)

/-- The two functions of `nlohmann::json` whose text format the client relies
on; an error is the `what()` of the `json::exception` thrown. -/
structure JsonLib where
  parse : Str → Except Str Json
  dump : Json → Except Str Str

/-- A response of `httplib`: `res->status` and `res->body`. -/
structure Response where
  status : Int
  body : Str
  deriving DecidableEq, Repr

/-- The requests of an `httplib::Client` built from a host and a port; `none`
is a result that holds no response (`!res`). -/
structure Transport where
  Get : Str → Int → Str → Option Response
  Post : Str → Int → Str → Str → Str → Option Response

/-- The characters of `s.c_str()` up to the first NUL. -/
def c_str (s : Str) : Str := s.takeWhile (fun c => c.toNat ≠ 0)

/-- What is thrown inside a `try` block of the client: a `json::exception` or
another `std::exception` (always a `std::runtime_error` here), with `what()`. -/
inductive Exn where
  | json_exception (what : Str)
  | runtime_error (what : Str)
  deriving DecidableEq, Repr

/-! ## The operations of `Client` -/

/-- The `try` block of `Client::testConnection()`. -/
def Client.testConnection (http : Transport) (self : Client) : Bool :=
  match http.Get self.m_impl.hostname self.m_impl.port "/".toList with
  | some res => res.status = 200 || res.status = 404
  | none => false

/-- The `try` block of `Client::queuePrompt`. -/
def Client.queuePromptTry (lib : JsonLib) (http : Transport) (self : Client)
    (workflow : Json) (clientId : Str) : Except Exn Str :=
  let payload := Json.object [("client_id".toList, .string clientId), ("prompt".toList, workflow)]
  match lib.dump payload with
  | .error w => .error (.json_exception w)
  | .ok body =>
    match http.Post self.m_impl.hostname self.m_impl.port "/prompt".toList body
        "application/json".toList with
    | none =>
      .error (.runtime_error
        ("Failed to connect to ComfyUI server at ".toList ++ self.m_impl.getServerAddress))
    | some res =>
      if res.status ≠ 200 then
        .error (.runtime_error
          ("ComfyUI server returned error: ".toList ++ to_string res.status ++ " - ".toList
            ++ res.body))
      else
        match lib.parse res.body with
        | .error w => .error (.json_exception w)
        | .ok response =>
          if response.contains "prompt_id".toList then
            match response.index "prompt_id".toList with
            | .error w => .error (.json_exception w)
            | .ok v =>
              match v.get_string with
              | .error w => .error (.json_exception w)
              | .ok id => .ok id
          else if response.contains "error".toList then
            match response.index "error".toList with
            | .error w => .error (.json_exception w)
            | .ok v =>
              match lib.dump v with
              | .error w => .error (.json_exception w)
              | .ok d => .error (.runtime_error ("ComfyUI error: ".toList ++ d))
          else
            .error (.runtime_error "Unexpected response from ComfyUI server".toList)

/-- The member `Client::queuePrompt(workflow, clientId)`: the job id returned,
or the `what()` of the `std::runtime_error` one of the two handlers throws. -/
def Client.queuePrompt (lib : JsonLib) (http : Transport) (self : Client)
    (workflow : Json) (clientId : Str) : Except Str Str :=
  match self.queuePromptTry lib http workflow clientId with
  | .ok id => .ok id
  | .error (.json_exception w) => .error ("JSON error: ".toList ++ w)
  | .error (.runtime_error w) => .error ("ComfyUI queue error: ".toList ++ w)

/-- The `try` block of `Client::getHistory`. -/
def Client.getHistoryTry (lib : JsonLib) (http : Transport) (self : Client)
    (promptId : Str) : Except Exn Json :=
  let endpoint := "/history/".toList ++ promptId
  match http.Get self.m_impl.hostname self.m_impl.port (c_str endpoint) with
  | none => .error (.runtime_error "Failed to get history from ComfyUI server".toList)
  | some res =>
    if res.status ≠ 200 then
      .error (.runtime_error ("ComfyUI history request failed: ".toList ++ to_string res.status))
    else
      match lib.parse res.body with
      | .error w => .error (.json_exception w)
      | .ok history =>
        if history.contains promptId then
          match history.index promptId with
          | .error w => .error (.json_exception w)
          | .ok v => .ok v
        else
          .ok (.object [])

/-- The member `Client::getHistory(promptId)`: the record returned, or the
`what()` of the `std::runtime_error` one of the two handlers throws. -/
def Client.getHistory (lib : JsonLib) (http : Transport) (self : Client)
    (promptId : Str) : Except Str Json :=
  match self.getHistoryTry lib http promptId with
  | .ok v => .ok v
  | .error (.json_exception w) => .error ("JSON parse error: ".toList ++ w)
  | .error (.runtime_error w) => .error ("Get history error: ".toList ++ w)

/-- The member `Client::interruptExecution(clientId)`; every `std::exception`
of the `try` block is caught and answered with `false`. -/
def Client.interruptExecution (lib : JsonLib) (http : Transport) (self : Client)
    (clientId : Str) : Bool :=
  match lib.dump (Json.object [("client_id".toList, .string clientId)]) with
  | .error _ => false
  | .ok body =>
    match http.Post self.m_impl.hostname self.m_impl.port "/interrupt".toList body
        "application/json".toList with
    | some res => res.status = 200
    | none => false

/-- The member `Client::setInputDirectory(path)`. -/
def Client.setInputDirectory (self : Client) (path : Str) : Client :=
  { m_impl := { self.m_impl with inputDir := path } }

/-- The member `Client::setOutputDirectory(path)`. -/
def Client.setOutputDirectory (self : Client) (path : Str) : Client :=
  { m_impl := { self.m_impl with outputDir := path } }

/-- The member `Client::getInputDirectory()`. -/
def Client.getInputDirectory (self : Client) : Str := self.m_impl.inputDir

/-- The member `Client::getOutputDirectory()`. -/
def Client.getOutputDirectory (self : Client) : Str := self.m_impl.outputDir

/-- The member `Client::getClientId()`. -/
def Client.getClientId (self : Client) : Str := self.m_impl.clientId

/-! ## Reading a client id back -/

/-- Whether a character is one of `0`-`9`, `a`-`f`. -/
def isLowerHexDigit (ch : Char) : Bool :=
  (48 ≤ ch.toNat && ch.toNat ≤ 57) || (97 ≤ ch.toNat && ch.toNat ≤ 102)

/-- The value of a hexadecimal digit `0`-`9`, `a`-`f`. -/
def hexValue (ch : Char) : Nat :=
  if ch.toNat ≤ 57 then ch.toNat - 48 else ch.toNat - 87

/-! ## Fixtures for the concrete instances -/

/-- A transport that answers every request with the same result. -/
def Transport.always (res : Option Response) : Transport :=
  { Get := fun _ _ _ => res, Post := fun _ _ _ _ _ => res }

/-- The body `{"prompt_id":"abc123"}`. -/
def bodyPromptId : Str := "\x7b\"prompt_id\":\"abc123\"\x7d".toList

/-- The body `{"prompt_id":123}`. -/
def bodyPromptIdNumber : Str := "\x7b\"prompt_id\":123\x7d".toList

/-- The body `{"abc123":{"outputs":{},"status":{"completed":true}}}`. -/
def bodyHistory : Str :=
  "\x7b\"abc123\":\x7b\"outputs\":\x7b\x7d,\"status\":\x7b\"completed\":true\x7d\x7d\x7d".toList

/-- The body `{"queue_remaining":0}`. -/
def bodyOther : Str := "\x7b\"queue_remaining\":0\x7d".toList

/-- The record of job `abc123` in `bodyHistory`. -/
def recordAbc123 : Json :=
  .object [("outputs".toList, .object []),
           ("status".toList, .object [("completed".toList, .boolean true)])]

/-- The `what()` of the `parse_error` thrown on the text `oops`. -/
def fixtureParseError : Str :=
  "[json.exception.parse_error.101] parse error at line 1, column 1: ".toList
    ++ "syntax error while parsing value - invalid literal; last read: 'o'".toList

/-- What `json::parse` and `json::dump` do on the texts of the concrete
instances: the four bodies above parse to their values, every other text is
rejected as `oops` would be; `dump` is only asked for a text to send. -/
def fixtureLib : JsonLib :=
  { parse := fun s =>
      if s = bodyPromptId then .ok (.object [("prompt_id".toList, .string "abc123".toList)])
      else if s = bodyPromptIdNumber then .ok (.object [("prompt_id".toList, .number_unsigned 123)])
      else if s = bodyHistory then .ok (.object [("abc123".toList, recordAbc123)])
      else if s = bodyOther then .ok (.object [("queue_remaining".toList, .number_unsigned 0)])
      else .error fixtureParseError
    dump := fun _ => .ok "\x7b\x7d".toList }

/-- A client at `localhost:8188`. -/
def fixtureClient : Client :=
  { m_impl := { hostname := "localhost".toList, port := 8188, inputDir := [], outputDir := [],
                clientId := "ofx_client_0000000000000000".toList } }

/-! ## Lemmas on the string functions -/

theorem find_eq_none {c : Char} {s : Str} (h : c ∉ s) : find c s = none := by
  induction s with
  | nil => rfl
  | cons x xs ih =>
    have hx : x ≠ c := fun e => h (e ▸ List.mem_cons_self _ _)
    have hxs : c ∉ xs := fun m => h (List.mem_cons_of_mem _ m)
    simp [find, hx, ih hxs]

theorem find_append_cons {c : Char} {host : Str} (rest : Str) (h : c ∉ host) :
    find c (host ++ c :: rest) = some host.length := by
  induction host with
  | nil => simp [find]
  | cons x xs ih =>
    have hx : x ≠ c := fun e => h (e ▸ List.mem_cons_self _ _)
    have hxs : c ∉ xs := fun m => h (List.mem_cons_of_mem _ m)
    simp [find, hx, ih hxs]

/-- A string with a colon splits at its first colon. -/
theorem split_first_colon {s : Str} (h : ':' ∈ s) :
    ∃ host rest, ':' ∉ host ∧ s = host ++ ':' :: rest := by
  induction s with
  | nil => exact absurd h (List.not_mem_nil _)
  | cons x xs ih =>
    by_cases hx : x = ':'
    · exact ⟨[], xs, List.not_mem_nil _, by simp [hx]⟩
    · have hxs : ':' ∈ xs := by
        rcases List.mem_cons.mp h with e | m
        · exact absurd e.symm hx
        · exact m
      obtain ⟨host, rest, hh, he⟩ := ih hxs
      refine ⟨x :: host, rest, ?_, by simp [he]⟩
      intro m
      rcases List.mem_cons.mp m with e | m
      · exact hx e.symm
      · exact hh m

theorem parseServerAddress_no_colon (self : Impl) {addr : Str} (h : ':' ∉ addr) :
    self.parseServerAddress addr = ({ self with hostname := addr, port := 8188 }, .ok ()) := by
  simp [Impl.parseServerAddress, find_eq_none h]

theorem parseServerAddress_colon (self : Impl) {host : Str} (rest : Str) (h : ':' ∉ host) :
    self.parseServerAddress (host ++ ':' :: rest) =
      match stoi rest with
      | .ok p => ({ self with hostname := host, port := p }, .ok ())
      | .error e => ({ self with hostname := host }, .error e) := by
  have hd : List.drop (host.length + 1) (host ++ ':' :: rest) = rest := by
    have hl : (host ++ [':']).length = host.length + 1 := by simp
    have := @List.drop_left' _ (host ++ [':']) rest (host.length + 1) hl
    rw [List.append_assoc] at this
    exact this
  simp only [Impl.parseServerAddress, find_append_cons rest h, substrTo, substrFrom,
    List.take_left, hd]

/-! ## Lemmas on `std::stoi` and `std::to_string` -/

theorem digitsVal_append_single (ds : Str) (d : Char) :
    digitsVal (ds ++ [d]) = 10 * digitsVal ds + (d.toNat - 48) := by
  simp [digitsVal, List.foldl_append]

theorem isdigit_bounds {c : Char} (h : isdigit c = true) : 48 ≤ c.toNat ∧ c.toNat ≤ 57 := by
  simpa [isdigit] using h

theorem digitChar_of_isdigit {c : Char} (h : isdigit c = true) : digitChar (c.toNat - 48) = c := by
  have hb := isdigit_bounds h
  have e : 48 + (c.toNat - 48) = c.toNat := by omega
  rw [digitChar, e, Char.ofNat_toNat]

theorem toNat_ne_of_ne {c d : Char} (h : c ≠ d) : c.toNat ≠ d.toNat := by
  intro e
  apply h
  rw [← Char.ofNat_toNat c, ← Char.ofNat_toNat d, e]

theorem decDigits_fuel : ∀ (f g n : Nat), n < f → n < g → decDigits f n = decDigits g n := by
  intro f
  induction f with
  | zero => intro g n h; exact absurd h (Nat.not_lt_zero _)
  | succ f ih =>
    intro g n hf hg
    cases g with
    | zero => exact absurd hg (Nat.not_lt_zero _)
    | succ g =>
      simp only [decDigits]
      by_cases h10 : n < 10
      · simp [h10]
      · simp only [h10, if_false]
        rw [ih g (n / 10) (by omega) (by omega)]

/-- Printing the value of a digit run that does not start with `0` gives the
run back, and that value is positive. -/
theorem decDigits_digitsVal (ds : Str) :
    ds ≠ [] → (∀ c ∈ ds, isdigit c = true) → ds.head? ≠ some '0' →
      decDigits (digitsVal ds + 1) (digitsVal ds) = ds ∧ 0 < digitsVal ds := by
  induction ds using List.reverseRecOn with
  | nil => intro h; exact absurd rfl h
  | append_singleton init d ih =>
    intro _ hdig hhead
    have hd : isdigit d = true := hdig d (by simp)
    have hb := isdigit_bounds hd
    have hc := digitChar_of_isdigit hd
    rw [digitsVal_append_single]
    cases init with
    | nil =>
      have hne : d ≠ '0' := by simpa using hhead
      have hn : d.toNat ≠ 48 := toNat_ne_of_ne hne
      have hv : digitsVal [] = 0 := rfl
      rw [hv]
      refine ⟨?_, by omega⟩
      simp only [decDigits, Nat.mul_zero, Nat.zero_add]
      have hlt : d.toNat - 48 < 10 := by omega
      simp [hlt, hc]
    | cons x xs =>
      obtain ⟨ihp, ihv⟩ := ih (by simp)
        (fun c hc => hdig c (List.mem_append_left _ hc)) (by simpa using hhead)
      refine ⟨?_, by omega⟩
      simp only [decDigits]
      have hge : ¬ 10 * digitsVal (x :: xs) + (d.toNat - 48) < 10 := by omega
      have hdiv : (10 * digitsVal (x :: xs) + (d.toNat - 48)) / 10 = digitsVal (x :: xs) := by
        omega
      have hmod : (10 * digitsVal (x :: xs) + (d.toNat - 48)) % 10 = d.toNat - 48 := by omega
      simp only [hge, if_false, hdiv, hmod, hc]
      rw [decDigits_fuel _ (digitsVal (x :: xs) + 1) _ (by omega) (by omega), ihp]

/-- Printing the value of a canonical decimal numeral gives the numeral. -/
theorem to_string_digitsVal {p : Str} (hne : p ≠ []) (hdig : ∀ c ∈ p, isdigit c = true)
    (hlead : p.head? = some '0' → p = ['0']) : to_string (digitsVal p : Int) = p := by
  have hnn : ¬ ((digitsVal p : Int) < 0) := by omega
  simp only [to_string, hnn, if_false, Int.natAbs_ofNat]
  by_cases h0 : p.head? = some '0'
  · rw [hlead h0]; decide
  · exact (decDigits_digitsVal p hne hdig h0).1

theorem splitSign_of_isdigit {x : Char} (xs : Str) (h : isdigit x = true) :
    splitSign (x :: xs) = (false, x :: xs) := by
  have hb := isdigit_bounds h
  unfold splitSign
  split
  · rename_i r heq
    have : x = '-' := by injection heq with a _
    rw [this] at hb
    exact absurd hb (by decide)
  · rename_i r heq
    have : x = '+' := by injection heq with a _
    rw [this] at hb
    exact absurd hb (by decide)
  · rfl

/-- On a non-empty run of decimal digits `strtol` reads the whole run. -/
theorem strtol_digits {p : Str} (hne : p ≠ []) (hdig : ∀ c ∈ p, isdigit c = true) :
    strtol p = some (digitsVal p : Int) := by
  cases p with
  | nil => exact absurd rfl hne
  | cons x xs =>
    have hx : isdigit x = true := hdig x (List.mem_cons_self _ _)
    have hb := isdigit_bounds hx
    have hsp : isspace x = false := by
      simp only [isspace, Bool.or_eq_false_iff, Bool.and_eq_false_iff, decide_eq_false_iff_not]
      omega
    have hdrop : List.dropWhile isspace (x :: xs) = x :: xs := by
      simp [List.dropWhile, hsp]
    have htake : List.takeWhile isdigit (x :: xs) = x :: xs :=
      List.takeWhile_eq_self_iff.mpr hdig
    simp [strtol, numeralValue, numeralDigits, numeralNeg, hdrop, splitSign_of_isdigit xs hx,
      htake]

theorem stoi_digits {p : Str} (hne : p ≠ []) (hdig : ∀ c ∈ p, isdigit c = true)
    (hmax : digitsVal p ≤ 2147483647) : stoi p = .ok (digitsVal p : Int) := by
  have h : ¬ ((digitsVal p : Int) < INT_MIN ∨ INT_MAX < (digitsVal p : Int)) := by
    simp only [INT_MIN, INT_MAX]; omega
  simp [stoi, strtol_digits hne hdig, h]

/-! ## Construction and reconfiguration in terms of the split at the first colon -/

theorem Client_new_no_colon (uninit : Int) (dis : Nat → Nat) {addr : Str} (h : ':' ∉ addr) :
    Client.new uninit dis addr =
      .ok { m_impl := { (Impl.blank uninit) with
              hostname := addr, port := 8188, clientId := generateClientId dis } } := by
  simp [Client.new, Impl.new, Impl.blank, parseServerAddress_no_colon _ h]

theorem Client_new_colon (uninit : Int) (dis : Nat → Nat) {host : Str} (rest : Str)
    (h : ':' ∉ host) :
    Client.new uninit dis (host ++ ':' :: rest) =
      match stoi rest with
      | .ok p => .ok { m_impl := { (Impl.blank uninit) with
                        hostname := host, port := p, clientId := generateClientId dis } }
      | .error e => .error e := by
  simp only [Client.new, Impl.new, parseServerAddress_colon _ rest h]
  cases stoi rest <;> rfl

theorem setServerAddress_no_colon (c : Client) {addr : Str} (h : ':' ∉ addr) :
    c.setServerAddress addr =
      ({ m_impl := { c.m_impl with hostname := addr, port := 8188 } }, .ok ()) := by
  simp [Client.setServerAddress, parseServerAddress_no_colon _ h]

theorem setServerAddress_colon (c : Client) {host : Str} (rest : Str) (h : ':' ∉ host) :
    c.setServerAddress (host ++ ':' :: rest) =
      match stoi rest with
      | .ok p => ({ m_impl := { c.m_impl with hostname := host, port := p } }, .ok ())
      | .error e => ({ m_impl := { c.m_impl with hostname := host } }, .error e) := by
  simp only [Client.setServerAddress, parseServerAddress_colon _ rest h]
  cases stoi rest <;> rfl

/-! ## C1: default port -/

/-- C1: for every address string `s` that contains no colon, constructing a
client with `s` succeeds with hostname `s` and port 8188, and so does
`setServerAddress(s)` on any client; in both cases `getServerAddress()` is `s`
followed by `:8188`. -/
theorem default_port_without_colon (s : Str) (h : ':' ∉ s) (uninit : Int) (dis : Nat → Nat)
    (c : Client) :
    (∃ c1, Client.new uninit dis s = .ok c1 ∧ c1.m_impl.hostname = s ∧ c1.m_impl.port = 8188 ∧
      c1.getServerAddress = s ++ ":8188".toList) ∧
    (c.setServerAddress s).2 = .ok () ∧
    (c.setServerAddress s).1.m_impl.hostname = s ∧
    (c.setServerAddress s).1.m_impl.port = 8188 ∧
    (c.setServerAddress s).1.getServerAddress = s ++ ":8188".toList := by
  have h8 : to_string 8188 = "8188".toList := by decide
  refine ⟨⟨_, Client_new_no_colon uninit dis h, rfl, rfl, ?_⟩, ?_⟩
  · simp [Client.getServerAddress, Impl.getServerAddress, h8]
  · rw [setServerAddress_no_colon c h]
    simp [Client.getServerAddress, Impl.getServerAddress, h8]

/-- C1 at `localhost`, on a client that was at `127.0.0.1:8080`. -/
theorem default_port_without_colon_witness :
    ':' ∉ "localhost".toList ∧
    (Client.setServerAddress
        { m_impl := { hostname := "127.0.0.1".toList, port := 8080, inputDir := [],
                      outputDir := [], clientId := [] } }
        "localhost".toList).1.getServerAddress = "localhost".toList ++ ":8188".toList :=
  ⟨by decide, (default_port_without_colon "localhost".toList (by decide) 0 (fun _ => 0) _).2.2.2.2⟩

/-! ## C2: round trip of `host:port` -/

/-- C2, counterexample: `08188` is a run of decimal digits, yet a client built
from `localhost:08188` (or reconfigured to it) reports `localhost:8188`. -/
theorem roundtrip_leading_zero_counterexample :
    (∀ ch ∈ "08188".toList, isdigit ch = true) ∧
    (Client.new 0 (fun _ => 0) "localhost:08188".toList).map Client.getServerAddress
      = .ok "localhost:8188".toList ∧
    (Client.new 0 (fun _ => 0) "localhost".toList).map
        (fun c => (c.setServerAddress "localhost:08188".toList).1.getServerAddress)
      = .ok "localhost:8188".toList ∧
    "localhost:8188".toList ≠ "localhost:08188".toList := by
  decide

/-- C2, amended: for every `host` without a colon and every port segment `p`
that is a non-empty run of decimal digits with no leading zero (unless `p` is
`0`) and with value at most 2147483647, constructing a client with `host:p`, or
calling `setServerAddress` with it, succeeds and `getServerAddress()` returns
`host:p` again. -/
theorem roundtrip_canonical_port (host p : Str) (hhost : ':' ∉ host) (hne : p ≠ [])
    (hdig : ∀ ch ∈ p, isdigit ch = true) (hlead : p.head? = some '0' → p = ['0'])
    (hmax : digitsVal p ≤ 2147483647) (uninit : Int) (dis : Nat → Nat) (c : Client) :
    (Client.new uninit dis (host ++ ':' :: p)).map Client.getServerAddress
      = .ok (host ++ ':' :: p) ∧
    (c.setServerAddress (host ++ ':' :: p)).2 = .ok () ∧
    (c.setServerAddress (host ++ ':' :: p)).1.getServerAddress = host ++ ':' :: p := by
  have hs := stoi_digits hne hdig hmax
  have ht := to_string_digitsVal hne hdig hlead
  rw [Client_new_colon uninit dis p hhost, setServerAddress_colon c p hhost, hs]
  simp [Except.map, Client.getServerAddress, Impl.getServerAddress, ht]

/-- C2 amended, at `localhost:8080`. -/
theorem roundtrip_canonical_port_witness :
    (Client.new 0 (fun _ => 0) ("localhost".toList ++ ':' :: "8080".toList)).map
        Client.getServerAddress
      = .ok ("localhost".toList ++ ':' :: "8080".toList) :=
  (roundtrip_canonical_port "localhost".toList "8080".toList (by decide) (by decide) (by decide)
    (by decide) (by decide) 0 (fun _ => 0) { m_impl := Impl.blank 0 }).1

/-! ## C3: a port segment that is not numeric -/

theorem stoi_eq (s : Str) :
    stoi s =
      if numeralDigits s = [] then .error .invalid_argument
      else if numeralValue s < INT_MIN ∨ INT_MAX < numeralValue s then .error .out_of_range
      else .ok (numeralValue s) := by
  unfold stoi strtol
  by_cases h : numeralDigits s = [] <;> simp [h]

theorem stoi_invalid_iff (s : Str) :
    stoi s = .error .invalid_argument ↔ numeralDigits s = [] := by
  rw [stoi_eq]
  by_cases h : numeralDigits s = []
  · simp [h]
  · by_cases hr : numeralValue s < INT_MIN ∨ INT_MAX < numeralValue s <;> simp [h, hr]

theorem stoi_range_iff (s : Str) :
    stoi s = .error .out_of_range ↔
      numeralDigits s ≠ [] ∧ (numeralValue s < -2147483648 ∨ 2147483647 < numeralValue s) := by
  rw [stoi_eq]
  by_cases h : numeralDigits s = []
  · simp [h]
  · by_cases hr : numeralValue s < INT_MIN ∨ INT_MAX < numeralValue s
    · simp only [h, hr, if_true, if_false, true_iff]
      exact ⟨h, hr⟩
    · simp only [h, hr, if_false]
      constructor
      · intro e; cases e
      · intro e; exact absurd e.2 hr

theorem stoi_ok_iff (s : Str) (v : Int) :
    stoi s = .ok v ↔
      numeralDigits s ≠ [] ∧ v = numeralValue s ∧ -2147483648 ≤ v ∧ v ≤ 2147483647 := by
  rw [stoi_eq]
  by_cases h : numeralDigits s = []
  · simp [h]
  · by_cases hr : numeralValue s < INT_MIN ∨ INT_MAX < numeralValue s
    · simp only [h, hr, if_true, if_false]
      constructor
      · intro e; cases e
      · rintro ⟨_, rfl, h1, h2⟩
        simp only [INT_MIN, INT_MAX] at hr
        omega
    · simp only [h, hr, if_false, Except.ok.injEq]
      simp only [INT_MIN, INT_MAX] at hr
      constructor
      · rintro rfl
        exact ⟨h, rfl, by omega, by omega⟩
      · rintro ⟨_, rfl, _, _⟩; rfl

/-- C3, counterexample: the segment after the colon of `host:80abc` is not a
decimal integer, yet construction and `setServerAddress` succeed, with hostname
`host` and port 80. -/
theorem trailing_letters_port_counterexample :
    ':' ∈ "host:80abc".toList ∧
    ¬ (∀ ch ∈ "80abc".toList, isdigit ch = true) ∧
    (Client.new 0 (fun _ => 0) "host:80abc".toList).map
        (fun c => (c.m_impl.hostname, c.m_impl.port)) = .ok ("host".toList, 80) ∧
    (Client.new 0 (fun _ => 0) "localhost".toList).map
        (fun c => ((c.setServerAddress "host:80abc".toList).2,
                   (c.setServerAddress "host:80abc".toList).1.getServerAddress))
      = .ok (.ok (), "host:80".toList) := by
  decide

/-- C3, amended: for every address `host:rest` split at its first colon,
construction and `setServerAddress` fail with `std::invalid_argument` exactly
when `rest`, after leading white space and one optional sign, does not start
with a decimal digit, and with `std::out_of_range` exactly when the numeral
read there has a value outside the `int` range; characters after the numeral
are ignored.  In particular `host:abc` fails. -/
theorem port_segment_failure_iff (host rest : Str) (hhost : ':' ∉ host) (uninit : Int)
    (dis : Nat → Nat) (c : Client) :
    (Client.new uninit dis (host ++ ':' :: rest) = .error .invalid_argument ↔
      numeralDigits rest = []) ∧
    ((c.setServerAddress (host ++ ':' :: rest)).2 = .error .invalid_argument ↔
      numeralDigits rest = []) ∧
    (Client.new uninit dis (host ++ ':' :: rest) = .error .out_of_range ↔
      numeralDigits rest ≠ [] ∧
        (numeralValue rest < -2147483648 ∨ 2147483647 < numeralValue rest)) ∧
    ((c.setServerAddress (host ++ ':' :: rest)).2 = .error .out_of_range ↔
      numeralDigits rest ≠ [] ∧
        (numeralValue rest < -2147483648 ∨ 2147483647 < numeralValue rest)) ∧
    Client.new uninit dis "host:abc".toList = .error .invalid_argument ∧
    (c.setServerAddress "host:abc".toList).2 = .error .invalid_argument := by
  have hn : ∀ e, Client.new uninit dis (host ++ ':' :: rest) = .error e ↔ stoi rest = .error e := by
    intro e
    rw [Client_new_colon uninit dis rest hhost]
    cases stoi rest <;> simp
  have hs : ∀ e, (c.setServerAddress (host ++ ':' :: rest)).2 = .error e ↔
      stoi rest = .error e := by
    intro e
    rw [setServerAddress_colon c rest hhost]
    cases stoi rest <;> simp
  refine ⟨?_, ?_, ?_, ?_, ?_, ?_⟩
  · rw [hn, stoi_invalid_iff]
  · rw [hs, stoi_invalid_iff]
  · rw [hn, stoi_range_iff]
  · rw [hs, stoi_range_iff]
  · have h1 : ':' ∉ "host".toList := by decide
    have h2 : stoi "abc".toList = .error .invalid_argument := by decide
    have := Client_new_colon uninit dis "abc".toList h1
    rw [h2] at this
    exact this
  · have h1 : ':' ∉ "host".toList := by decide
    have h2 : stoi "abc".toList = .error .invalid_argument := by decide
    have := setServerAddress_colon c "abc".toList h1
    rw [h2] at this
    rw [show "host:abc".toList = "host".toList ++ ':' :: "abc".toList from rfl, this]

/-- C3 amended, at `host: x1`: no digit follows the white space. -/
theorem port_segment_failure_iff_witness :
    ':' ∉ "host".toList ∧
    Client.new 0 (fun _ => 0) ("host".toList ++ ':' :: " x1".toList) = .error .invalid_argument :=
  ⟨by decide,
    (port_segment_failure_iff "host".toList " x1".toList (by decide) 0 (fun _ => 0)
      { m_impl := Impl.blank 0 }).1.mpr (by decide)⟩

/-! ## C4: what a failed `setServerAddress` leaves behind -/

/-- C4, the code at the failing input: on a client built from
`localhost:8188`, `setServerAddress("example.com:abc")` throws
`std::invalid_argument`, and afterwards `getServerAddress()` is
`example.com:8188`: the new hostname with the old port. -/
theorem setServerAddress_failure_mixes_addresses :
    (Client.new 0 (fun _ => 0) "localhost:8188".toList).map
        (fun c => ((c.setServerAddress "example.com:abc".toList).2,
                   (c.setServerAddress "example.com:abc".toList).1.getServerAddress,
                   c.getServerAddress))
      = .ok (.error .invalid_argument, "example.com:8188".toList, "localhost:8188".toList) := by
  decide

/-! ## C5: the stored port -/

theorem digitsVal_pos_iff (ds : Str) :
    (∀ ch ∈ ds, isdigit ch = true) → (0 < digitsVal ds ↔ ∃ d ∈ ds, d ≠ '0') := by
  induction ds using List.reverseRecOn with
  | nil => intro _; simp [digitsVal]
  | append_singleton init d ih =>
    intro hdig
    have hb := isdigit_bounds (hdig d (by simp))
    have ih1 := ih (fun ch hch => hdig ch (List.mem_append_left _ hch))
    rw [digitsVal_append_single]
    constructor
    · intro hpos
      by_cases h0 : 0 < digitsVal init
      · obtain ⟨e, he, hne⟩ := ih1.mp h0
        exact ⟨e, List.mem_append_left _ he, hne⟩
      · refine ⟨d, by simp, ?_⟩
        intro hd
        rw [hd] at hpos
        have : ('0' : Char).toNat = 48 := by decide
        omega
    · rintro ⟨e, he, hne⟩
      rcases List.mem_append.mp he with h | h
      · have := ih1.mpr ⟨e, h, hne⟩
        omega
      · have he : e = d := by simpa using h
        have hn : d.toNat ≠ ('0' : Char).toNat := toNat_ne_of_ne (he ▸ hne)
        have : ('0' : Char).toNat = 48 := by decide
        omega

theorem numeralDigits_isdigit (s : Str) : ∀ ch ∈ numeralDigits s, isdigit ch = true :=
  fun _ h => List.mem_takeWhile_imp h

theorem numeralValue_pos_iff (s : Str) :
    0 < numeralValue s ↔ numeralNeg s = false ∧ ∃ d ∈ numeralDigits s, d ≠ '0' := by
  have h := digitsVal_pos_iff (numeralDigits s) (numeralDigits_isdigit s)
  unfold numeralValue
  cases hn : numeralNeg s
  · simp only [Bool.false_eq_true, if_false, true_and]
    rw [← h]
    omega
  · simp only [if_true, Bool.true_eq_false, false_and, iff_false]
    omega

theorem split_first_colon_unique {host host1 rest rest1 : Str} (h : ':' ∉ host)
    (h1 : ':' ∉ host1) (e : host ++ ':' :: rest = host1 ++ ':' :: rest1) :
    host = host1 ∧ rest = rest1 := by
  have f := find_append_cons rest h
  rw [e, find_append_cons rest1 h1] at f
  have hl : host1.length = host.length := by injection f
  have := List.append_inj e hl.symm
  exact ⟨this.1, by injection this.2⟩

/-- The port a successful `parseServerAddress` stores. -/
theorem parseServerAddress_port (self : Impl) (addr : Str)
    (hok : (self.parseServerAddress addr).2 = .ok ()) :
    -2147483648 ≤ (self.parseServerAddress addr).1.port ∧
    (self.parseServerAddress addr).1.port ≤ 2147483647 ∧
    (0 < (self.parseServerAddress addr).1.port ↔
      (':' ∉ addr ∨ ∃ host rest, ':' ∉ host ∧ addr = host ++ ':' :: rest ∧
        numeralNeg rest = false ∧ ∃ d ∈ numeralDigits rest, d ≠ '0')) := by
  by_cases hc : ':' ∈ addr
  · obtain ⟨host, rest, hh, rfl⟩ := split_first_colon hc
    rw [parseServerAddress_colon self rest hh] at hok ⊢
    cases hst : stoi rest with
    | error e => rw [hst] at hok; cases hok
    | ok p =>
      obtain ⟨_, hp, hlo, hhi⟩ := (stoi_ok_iff rest p).mp hst
      refine ⟨hlo, hhi, ?_⟩
      show 0 < p ↔ _
      rw [hp, numeralValue_pos_iff]
      constructor
      · rintro ⟨hneg, hd⟩
        exact Or.inr ⟨host, rest, hh, rfl, hneg, hd⟩
      · rintro (hno | ⟨host1, rest1, hh1, e, hneg, hd⟩)
        · exact absurd hc hno
        · obtain ⟨_, rfl⟩ := split_first_colon_unique hh hh1 e
          exact ⟨hneg, hd⟩
  · rw [parseServerAddress_no_colon self hc]
    refine ⟨?_, ?_, ?_⟩
    · show (-2147483648 : Int) ≤ 8188
      decide
    · show (8188 : Int) ≤ 2147483647
      decide
    · simp [hc]

theorem Client_new_ok {uninit : Int} {dis : Nat → Nat} {addr : Str} {c1 : Client}
    (h : Client.new uninit dis addr = .ok c1) :
    ((Impl.blank uninit).parseServerAddress addr).2 = .ok () ∧
    c1.m_impl.port = ((Impl.blank uninit).parseServerAddress addr).1.port := by
  unfold Client.new Impl.new at h
  change (match (match (Impl.blank uninit).parseServerAddress addr with
      | (self, .ok ()) => Except.ok self
      | (_, .error e) => Except.error e) with
    | .ok impl => Except.ok { m_impl := { impl with clientId := generateClientId dis } }
    | .error e => Except.error e) = Except.ok c1 at h
  rcases hp : (Impl.blank uninit).parseServerAddress addr with ⟨i, r⟩
  rw [hp] at h
  cases r with
  | error e => cases h
  | ok u =>
    cases u
    simp only [Except.ok.injEq] at h
    subst h
    exact ⟨rfl, rfl⟩

/-- C5, counterexample: construction with `localhost:0` succeeds and stores
port 0, and `setServerAddress("localhost:-5")` succeeds and stores port -5. -/
theorem port_not_positive_counterexample :
    (Client.new 0 (fun _ => 0) "localhost:0".toList).map
        (fun c => (c.m_impl.port, decide (0 < c.m_impl.port))) = .ok (0, false) ∧
    (Client.new 0 (fun _ => 0) "localhost".toList).map
        (fun c => ((c.setServerAddress "localhost:-5".toList).2,
                   (c.setServerAddress "localhost:-5".toList).1.m_impl.port))
      = .ok (.ok (), -5) := by
  decide

/-- C5, amended: after every successful construction and every successful
`setServerAddress`, for any input string, the stored port is an `int`
(between -2147483648 and 2147483647), and it is positive exactly when the
input has no colon (port 8188) or the numeral read after the first colon has
no minus sign and has a digit other than `0`. -/
theorem stored_port_range (addr : Str) (uninit : Int) (dis : Nat → Nat) (c : Client) :
    (∀ c1, Client.new uninit dis addr = .ok c1 →
      -2147483648 ≤ c1.m_impl.port ∧ c1.m_impl.port ≤ 2147483647 ∧
      (0 < c1.m_impl.port ↔
        (':' ∉ addr ∨ ∃ host rest, ':' ∉ host ∧ addr = host ++ ':' :: rest ∧
          numeralNeg rest = false ∧ ∃ d ∈ numeralDigits rest, d ≠ '0'))) ∧
    ((c.setServerAddress addr).2 = .ok () →
      -2147483648 ≤ (c.setServerAddress addr).1.m_impl.port ∧
      (c.setServerAddress addr).1.m_impl.port ≤ 2147483647 ∧
      (0 < (c.setServerAddress addr).1.m_impl.port ↔
        (':' ∉ addr ∨ ∃ host rest, ':' ∉ host ∧ addr = host ++ ':' :: rest ∧
          numeralNeg rest = false ∧ ∃ d ∈ numeralDigits rest, d ≠ '0'))) := by
  constructor
  · intro c1 h
    obtain ⟨hok, hp⟩ := Client_new_ok h
    rw [hp]
    exact parseServerAddress_port _ addr hok
  · intro hok
    exact parseServerAddress_port c.m_impl addr hok

/-- C5 amended, at `localhost:9999` set on a client that was at `localhost:8188`. -/
theorem stored_port_range_witness :
    (Client.setServerAddress { m_impl := { (Impl.blank 0) with port := 8188 } }
        "localhost:9999".toList).2 = .ok () ∧
    0 < (Client.setServerAddress { m_impl := { (Impl.blank 0) with port := 8188 } }
        "localhost:9999".toList).1.m_impl.port :=
  ⟨by decide,
    ((stored_port_range "localhost:9999".toList 0 (fun _ => 0)
        { m_impl := { (Impl.blank 0) with port := 8188 } }).2 (by decide)).2.2.mpr
      (Or.inr ⟨"localhost".toList, "9999".toList, by decide, by decide, by decide,
        '9', by decide, by decide⟩)⟩

/-! ## C6: the job id of a submission -/

/-- C6, counterexample: the 200 response `{"prompt_id":123}` has a `prompt_id`
field, yet `queuePrompt` returns no job id: it throws the `JSON error` of
`get<std::string>()` on a number. -/
theorem prompt_id_number_counterexample :
    fixtureLib.parse bodyPromptIdNumber
      = .ok (.object [("prompt_id".toList, .number_unsigned 123)]) ∧
    (Json.object [("prompt_id".toList, .number_unsigned 123)]).contains "prompt_id".toList
      = true ∧
    fixtureClient.queuePrompt fixtureLib
        (Transport.always (some { status := 200, body := bodyPromptIdNumber }))
        (.object []) fixtureClient.getClientId
      = .error ("JSON error: [json.exception.type_error.302] ".toList
          ++ "type must be string, but is number".toList) :=
  ⟨rfl, rfl, by decide⟩

/-- C6, amended: for every response to the POST of `queuePrompt` with status
200 whose JSON body contains a `prompt_id` field holding a string, `queuePrompt`
returns that string as the job id. -/
theorem queuePrompt_returns_prompt_id (lib : JsonLib) (http : Transport) (c : Client)
    (workflow : Json) (clientId body : Str) (res : Response) (response : Json) (id : Str)
    (hdump : lib.dump (.object [("client_id".toList, .string clientId),
      ("prompt".toList, workflow)]) = .ok body)
    (hpost : http.Post c.m_impl.hostname c.m_impl.port "/prompt".toList body
      "application/json".toList = some res)
    (hstatus : res.status = 200)
    (hparse : lib.parse res.body = .ok response)
    (hcontains : response.contains "prompt_id".toList = true)
    (hvalue : response.index "prompt_id".toList = .ok (.string id)) :
    c.queuePrompt lib http workflow clientId = .ok id := by
  simp only [Client.queuePrompt, Client.queuePromptTry, hdump, hpost, hstatus, hparse,
    hcontains, hvalue, Json.get_string, ne_eq, not_true_eq_false, if_true, if_false]

/-- C6 amended, at the response `{"prompt_id":"abc123"}`. -/
theorem queuePrompt_returns_prompt_id_witness :
    fixtureClient.queuePrompt fixtureLib
        (Transport.always (some { status := 200, body := bodyPromptId }))
        (.object []) fixtureClient.getClientId = .ok "abc123".toList :=
  queuePrompt_returns_prompt_id fixtureLib
    (Transport.always (some { status := 200, body := bodyPromptId })) fixtureClient (.object [])
    fixtureClient.getClientId "\x7b\x7d".toList { status := 200, body := bodyPromptId }
    (.object [("prompt_id".toList, .string "abc123".toList)]) "abc123".toList
    rfl rfl rfl rfl rfl rfl

/-! ## C7: the history record -/

/-- C7: for every `promptId` and every 200 response to the GET of `getHistory`
whose body parses: when the parsed body is an object with a member keyed by
`promptId`, `getHistory` returns exactly that member; when it has no such key
(`contains` is false), `getHistory` returns the empty object and does not
fail. -/
theorem getHistory_record_or_empty (lib : JsonLib) (http : Transport) (c : Client)
    (promptId : Str) (res : Response) (history : Json)
    (hget : http.Get c.m_impl.hostname c.m_impl.port (c_str ("/history/".toList ++ promptId))
      = some res)
    (hstatus : res.status = 200)
    (hparse : lib.parse res.body = .ok history) :
    (∀ members record, history = .object members →
        members_find promptId members = some record →
        c.getHistory lib http promptId = .ok record) ∧
    (history.contains promptId = false → c.getHistory lib http promptId = .ok (.object [])) := by
  constructor
  · intro members record hobj hfind
    subst hobj
    simp only [Client.getHistory, Client.getHistoryTry, hget, hstatus, hparse, Json.contains,
      Json.index, hfind, Option.isSome_some, ne_eq, not_true_eq_false, if_true, if_false]
  · intro hno
    simp only [Client.getHistory, Client.getHistoryTry, hget, hstatus, hparse, hno, ne_eq,
      not_true_eq_false, if_false, Bool.false_eq_true]

/-- C7 at the response `{"abc123":{"outputs":{},"status":{"completed":true}}}`:
`getHistory("abc123")` returns the record and `getHistory("unknown")` the empty
object. -/
theorem getHistory_record_or_empty_witness :
    fixtureClient.getHistory fixtureLib
        (Transport.always (some { status := 200, body := bodyHistory })) "abc123".toList
      = .ok recordAbc123 ∧
    fixtureClient.getHistory fixtureLib
        (Transport.always (some { status := 200, body := bodyHistory })) "unknown".toList
      = .ok (.object []) :=
  ⟨(getHistory_record_or_empty fixtureLib
      (Transport.always (some { status := 200, body := bodyHistory })) fixtureClient
      "abc123".toList { status := 200, body := bodyHistory }
      (.object [("abc123".toList, recordAbc123)]) rfl rfl rfl).1 _ _ rfl rfl,
   (getHistory_record_or_empty fixtureLib
      (Transport.always (some { status := 200, body := bodyHistory })) fixtureClient
      "unknown".toList { status := 200, body := bodyHistory }
      (.object [("abc123".toList, recordAbc123)]) rfl rfl rfl).2 rfl⟩

/-! ## C8: a 200 response with neither field -/

/-- C8: for every 200 response to the POST of `queuePrompt` whose parsed body
contains neither `prompt_id` nor `error`, `queuePrompt` returns no job id: it
throws the error `Unexpected response from ComfyUI server`, as rethrown by the
handler of the `try` block. -/
theorem queuePrompt_unexpected_response (lib : JsonLib) (http : Transport) (c : Client)
    (workflow : Json) (clientId body : Str) (res : Response) (response : Json)
    (hdump : lib.dump (.object [("client_id".toList, .string clientId),
      ("prompt".toList, workflow)]) = .ok body)
    (hpost : http.Post c.m_impl.hostname c.m_impl.port "/prompt".toList body
      "application/json".toList = some res)
    (hstatus : res.status = 200)
    (hparse : lib.parse res.body = .ok response)
    (hid : response.contains "prompt_id".toList = false)
    (herr : response.contains "error".toList = false) :
    c.queuePrompt lib http workflow clientId
      = .error ("ComfyUI queue error: ".toList
          ++ "Unexpected response from ComfyUI server".toList) := by
  simp only [Client.queuePrompt, Client.queuePromptTry, hdump, hpost, hstatus, hparse, hid, herr,
    ne_eq, not_true_eq_false, if_false, Bool.false_eq_true]

/-- C8 at the response `{"queue_remaining":0}`. -/
theorem queuePrompt_unexpected_response_witness :
    fixtureClient.queuePrompt fixtureLib
        (Transport.always (some { status := 200, body := bodyOther }))
        (.object []) fixtureClient.getClientId
      = .error ("ComfyUI queue error: ".toList
          ++ "Unexpected response from ComfyUI server".toList) :=
  queuePrompt_unexpected_response fixtureLib
    (Transport.always (some { status := 200, body := bodyOther })) fixtureClient (.object [])
    fixtureClient.getClientId "\x7b\x7d".toList { status := 200, body := bodyOther }
    (.object [("queue_remaining".toList, .number_unsigned 0)]) rfl rfl rfl rfl rfl rfl

/-! ## C9: malformed JSON -/

/-- C9, counterexample: the body `oops` of a response with status 500 is
malformed JSON, yet the error of `queuePrompt` is the one for the status, with
the body in it, and the error of `getHistory` is the one for the status; neither
wraps the parse failure. -/
theorem malformed_body_non_200_counterexample :
    fixtureLib.parse "oops".toList = .error fixtureParseError ∧
    fixtureClient.queuePrompt fixtureLib
        (Transport.always (some { status := 500, body := "oops".toList }))
        (.object []) fixtureClient.getClientId
      = .error "ComfyUI queue error: ComfyUI server returned error: 500 - oops".toList ∧
    fixtureClient.queuePrompt fixtureLib
        (Transport.always (some { status := 500, body := "oops".toList }))
        (.object []) fixtureClient.getClientId
      ≠ .error ("JSON error: ".toList ++ fixtureParseError) ∧
    fixtureClient.getHistory fixtureLib
        (Transport.always (some { status := 500, body := "oops".toList })) "abc123".toList
      = .error "Get history error: ComfyUI history request failed: 500".toList ∧
    fixtureClient.getHistory fixtureLib
        (Transport.always (some { status := 500, body := "oops".toList })) "abc123".toList
      ≠ .error ("JSON parse error: ".toList ++ fixtureParseError) :=
  ⟨rfl, by decide, by decide, rfl, fun h => by cases h⟩

/-- C9, amended: any response with status 200 whose body is malformed JSON
makes `queuePrompt` fail with `JSON error: ` followed by the parse failure, and
makes `getHistory` fail with `JSON parse error: ` followed by the parse
failure; and for a response of any status with such a body neither operation
returns a value. -/
theorem malformed_json_fails (lib : JsonLib) (http : Transport) (c : Client) :
    (∀ (workflow : Json) (clientId body : Str) (res : Response) (e : Str),
      lib.dump (.object [("client_id".toList, .string clientId),
        ("prompt".toList, workflow)]) = .ok body →
      http.Post c.m_impl.hostname c.m_impl.port "/prompt".toList body
        "application/json".toList = some res →
      lib.parse res.body = .error e →
      (res.status = 200 →
        c.queuePrompt lib http workflow clientId = .error ("JSON error: ".toList ++ e)) ∧
      ∃ msg, c.queuePrompt lib http workflow clientId = .error msg) ∧
    (∀ (promptId : Str) (res : Response) (e : Str),
      http.Get c.m_impl.hostname c.m_impl.port (c_str ("/history/".toList ++ promptId))
        = some res →
      lib.parse res.body = .error e →
      (res.status = 200 →
        c.getHistory lib http promptId = .error ("JSON parse error: ".toList ++ e)) ∧
      ∃ msg, c.getHistory lib http promptId = .error msg) := by
  constructor
  · intro workflow clientId body res e hdump hpost hparse
    have h200 : res.status = 200 →
        c.queuePrompt lib http workflow clientId = .error ("JSON error: ".toList ++ e) := by
      intro hstatus
      simp only [Client.queuePrompt, Client.queuePromptTry, hdump, hpost, hstatus, hparse, ne_eq,
        not_true_eq_false, if_false]
    refine ⟨h200, ?_⟩
    by_cases hstatus : res.status = 200
    · exact ⟨_, h200 hstatus⟩
    · refine ⟨"ComfyUI queue error: ".toList ++ ("ComfyUI server returned error: ".toList
        ++ to_string res.status ++ " - ".toList ++ res.body), ?_⟩
      simp only [Client.queuePrompt, Client.queuePromptTry, hdump, hpost, hstatus, ne_eq,
        not_false_eq_true, if_true]
  · intro promptId res e hget hparse
    have h200 : res.status = 200 →
        c.getHistory lib http promptId = .error ("JSON parse error: ".toList ++ e) := by
      intro hstatus
      simp only [Client.getHistory, Client.getHistoryTry, hget, hstatus, hparse, ne_eq,
        not_true_eq_false, if_false]
    refine ⟨h200, ?_⟩
    by_cases hstatus : res.status = 200
    · exact ⟨_, h200 hstatus⟩
    · refine ⟨"Get history error: ".toList ++ ("ComfyUI history request failed: ".toList
        ++ to_string res.status), ?_⟩
      simp only [Client.getHistory, Client.getHistoryTry, hget, hstatus, ne_eq,
        not_false_eq_true, if_true]

/-- C9 amended, at the 200 response with body `oops`. -/
theorem malformed_json_fails_witness :
    fixtureClient.queuePrompt fixtureLib
        (Transport.always (some { status := 200, body := "oops".toList }))
        (.object []) fixtureClient.getClientId
      = .error ("JSON error: ".toList ++ fixtureParseError) ∧
    fixtureClient.getHistory fixtureLib
        (Transport.always (some { status := 200, body := "oops".toList })) "abc123".toList
      = .error ("JSON parse error: ".toList ++ fixtureParseError) :=
  ⟨((malformed_json_fails fixtureLib
      (Transport.always (some { status := 200, body := "oops".toList })) fixtureClient).1
      (.object []) fixtureClient.getClientId "\x7b\x7d".toList
      { status := 200, body := "oops".toList } _ rfl rfl rfl).1 rfl,
   ((malformed_json_fails fixtureLib
      (Transport.always (some { status := 200, body := "oops".toList })) fixtureClient).2
      "abc123".toList { status := 200, body := "oops".toList } _ rfl rfl).1 rfl⟩

/-! ## C10: interrupt -/

/-- C10: `interruptExecution` always returns a Boolean, and it returns `true`
if and only if the POST to `/interrupt` was made, a response was received and
its status is 200; with no response, or with any other status, it returns
`false`. -/
theorem interruptExecution_true_iff (lib : JsonLib) (http : Transport) (c : Client)
    (clientId : Str) :
    (c.interruptExecution lib http clientId = true ↔
      ∃ body res, lib.dump (.object [("client_id".toList, .string clientId)]) = .ok body ∧
        http.Post c.m_impl.hostname c.m_impl.port "/interrupt".toList body
          "application/json".toList = some res ∧
        res.status = 200) ∧
    (∀ body, lib.dump (.object [("client_id".toList, .string clientId)]) = .ok body →
      http.Post c.m_impl.hostname c.m_impl.port "/interrupt".toList body
        "application/json".toList = none →
      c.interruptExecution lib http clientId = false) ∧
    (∀ body res, lib.dump (.object [("client_id".toList, .string clientId)]) = .ok body →
      http.Post c.m_impl.hostname c.m_impl.port "/interrupt".toList body
        "application/json".toList = some res →
      res.status ≠ 200 →
      c.interruptExecution lib http clientId = false) := by
  refine ⟨?_, ?_, ?_⟩
  · cases hd : lib.dump (.object [("client_id".toList, .string clientId)]) with
    | error w =>
      simp only [Client.interruptExecution, hd, Bool.false_eq_true, false_iff]
      rintro ⟨b, r, hb, _⟩
      cases hb
    | ok body =>
      cases hp : http.Post c.m_impl.hostname c.m_impl.port "/interrupt".toList body
          "application/json".toList with
      | none =>
        simp only [Client.interruptExecution, hd, hp, Bool.false_eq_true, false_iff]
        rintro ⟨b, r, hb, hr, _⟩
        injection hb with hb
        subst hb
        rw [hp] at hr
        cases hr
      | some res =>
        simp only [Client.interruptExecution, hd, hp, decide_eq_true_eq]
        constructor
        · intro h; exact ⟨body, res, rfl, hp, h⟩
        · rintro ⟨b, r, hb, hr, hs⟩
          injection hb with hb
          subst hb
          rw [hp] at hr
          injection hr with hr
          subst hr
          exact hs
  · intro body hd hp
    simp only [Client.interruptExecution, hd, hp]
  · intro body res hd hp hs
    simp only [Client.interruptExecution, hd, hp, hs, decide_False]

/-- C10 at a server that answers 200, at one that answers 500, and with no
listener. -/
theorem interruptExecution_true_iff_witness :
    fixtureClient.interruptExecution fixtureLib
        (Transport.always (some { status := 200, body := [] })) fixtureClient.getClientId
      = true ∧
    fixtureClient.interruptExecution fixtureLib
        (Transport.always (some { status := 500, body := [] })) fixtureClient.getClientId
      = false ∧
    fixtureClient.interruptExecution fixtureLib (Transport.always none) fixtureClient.getClientId
      = false :=
  ⟨(interruptExecution_true_iff fixtureLib
      (Transport.always (some { status := 200, body := [] })) fixtureClient
      fixtureClient.getClientId).1.mpr ⟨_, _, rfl, rfl, rfl⟩,
   (interruptExecution_true_iff fixtureLib
      (Transport.always (some { status := 500, body := [] })) fixtureClient
      fixtureClient.getClientId).2.2 _ _ rfl rfl (by decide),
   (interruptExecution_true_iff fixtureLib (Transport.always none) fixtureClient
      fixtureClient.getClientId).2.1 _ rfl rfl⟩

/-! ## C11: the reachability probe -/

/-- C11: `testConnection` always returns a Boolean, and it returns `true` if
and only if the `GET /` probe received a response whose status is 200 or 404;
with no response, or with any other status, it returns `false`. -/
theorem testConnection_true_iff (http : Transport) (c : Client) :
    (c.testConnection http = true ↔
      ∃ res, http.Get c.m_impl.hostname c.m_impl.port "/".toList = some res ∧
        (res.status = 200 ∨ res.status = 404)) ∧
    (http.Get c.m_impl.hostname c.m_impl.port "/".toList = none →
      c.testConnection http = false) ∧
    (∀ res, http.Get c.m_impl.hostname c.m_impl.port "/".toList = some res →
      res.status ≠ 200 → res.status ≠ 404 → c.testConnection http = false) := by
  refine ⟨?_, ?_, ?_⟩
  · cases hg : http.Get c.m_impl.hostname c.m_impl.port "/".toList with
    | none =>
      simp only [Client.testConnection, hg, Bool.false_eq_true, false_iff]
      rintro ⟨r, hr, _⟩
      cases hr
    | some res =>
      simp only [Client.testConnection, hg, Bool.or_eq_true, decide_eq_true_eq]
      constructor
      · intro h; exact ⟨res, rfl, h⟩
      · rintro ⟨r, hr, hs⟩
        injection hr with hr
        subst hr
        exact hs
  · intro hg
    simp only [Client.testConnection, hg]
  · intro res hg h200 h404
    simp only [Client.testConnection, hg, h200, h404, decide_False, Bool.or_self]

/-- C11 at a server that answers 200, one that answers 404, one that answers
500, and with no listener. -/
theorem testConnection_true_iff_witness :
    fixtureClient.testConnection (Transport.always (some { status := 200, body := [] })) = true ∧
    fixtureClient.testConnection (Transport.always (some { status := 404, body := [] })) = true ∧
    fixtureClient.testConnection (Transport.always (some { status := 500, body := [] })) = false ∧
    fixtureClient.testConnection (Transport.always none) = false :=
  ⟨(testConnection_true_iff (Transport.always (some { status := 200, body := [] }))
      fixtureClient).1.mpr ⟨_, rfl, Or.inl rfl⟩,
   (testConnection_true_iff (Transport.always (some { status := 404, body := [] }))
      fixtureClient).1.mpr ⟨_, rfl, Or.inr rfl⟩,
   (testConnection_true_iff (Transport.always (some { status := 500, body := [] }))
      fixtureClient).2.2 _ rfl (by decide) (by decide),
   (testConnection_true_iff (Transport.always none) fixtureClient).2.1 rfl⟩

/-! ## C12: the client id -/

theorem hexDigits_single {d : Nat} (h : d ≤ 15) : hexDigits (d + 1) d = [Nat.digitChar d] := by
  have hlt : d < 16 := by omega
  simp only [hexDigits, hlt, if_true]

theorem digitChar_hex {d : Nat} (h : d ≤ 15) :
    isLowerHexDigit (Nat.digitChar d) = true ∧ hexValue (Nat.digitChar d) = d := by
  interval_cases d <;> exact ⟨by decide, by decide⟩

theorem flatMap_hexDigits (dis : Nat → Nat) (l : List Nat) (h : ∀ i ∈ l, dis i ≤ 15) :
    l.flatMap (fun i => hexDigits (dis i + 1) (dis i))
      = l.map (fun i => Nat.digitChar (dis i)) := by
  induction l with
  | nil => rfl
  | cons x xs ih =>
    rw [List.flatMap_cons, List.map_cons, hexDigits_single (h x (List.mem_cons_self _ _)),
      ih (fun i hi => h i (List.mem_cons_of_mem _ hi))]
    rfl

theorem generateClientId_eq (dis : Nat → Nat) (h : ∀ i, i < 16 → dis i ≤ 15) :
    generateClientId dis
      = "ofx_client_".toList ++ (List.range 16).map (fun i => Nat.digitChar (dis i)) := by
  unfold generateClientId
  rw [flatMap_hexDigits dis (List.range 16) (fun i hi => h i (List.mem_range.mp hi))]

/-- C12: for every sequence of 16 draws in 0..15, the generated client id is
`ofx_client_` followed by exactly 16 characters, the one at place `i` being a
hexadecimal digit (`0`-`9`, `a`-`f`) whose value is the `i`-th draw; so the id
is non-empty, has length 27, and two sequences of draws that differ somewhere
give two different ids. -/
theorem generateClientId_format (dis : Nat → Nat) (h : ∀ i, i < 16 → dis i ≤ 15) :
    (generateClientId dis).take 11 = "ofx_client_".toList ∧
    ((generateClientId dis).drop 11).length = 16 ∧
    (∀ i, i < 16 → ∃ ch, (generateClientId dis)[11 + i]? = some ch ∧
      isLowerHexDigit ch = true ∧ hexValue ch = dis i) ∧
    generateClientId dis ≠ [] ∧
    (generateClientId dis).length = 27 ∧
    (∀ dis2 : Nat → Nat, (∀ i, i < 16 → dis2 i ≤ 15) → (∃ i, i < 16 ∧ dis i ≠ dis2 i) →
      generateClientId dis ≠ generateClientId dis2) := by
  have he := generateClientId_eq dis h
  have hp : "ofx_client_".toList.length = 11 := by decide
  have hlen : (generateClientId dis).length = 27 := by
    rw [he, List.length_append, hp, List.length_map, List.length_range]
  refine ⟨?_, ?_, ?_, ?_, hlen, ?_⟩
  · rw [he, ← hp, List.take_left]
  · rw [List.length_drop, hlen]
  · intro i hi
    refine ⟨Nat.digitChar (dis i), ?_, (digitChar_hex (h i hi)).1, (digitChar_hex (h i hi)).2⟩
    rw [he, List.getElem?_append_right (by rw [hp]; omega), hp, List.getElem?_map,
      show 11 + i - 11 = i by omega, List.getElem?_range hi]
    rfl
  · intro hnil
    rw [hnil] at hlen
    cases hlen
  · rintro dis2 h2 ⟨i, hi, hne⟩ heq
    rw [he, generateClientId_eq dis2 h2] at heq
    have hm := List.map_inj_left.mp (List.append_cancel_left heq) i (List.mem_range.mpr hi)
    have hv : hexValue (Nat.digitChar (dis i)) = hexValue (Nat.digitChar (dis2 i)) := by
      rw [hm]
    rw [(digitChar_hex (h i hi)).2, (digitChar_hex (h2 i hi)).2] at hv
    exact hne hv

/-- C12 at the draws 0, 1, ..., 15: the id is `ofx_client_0123456789abcdef`, of
length 27. -/
theorem generateClientId_format_witness :
    (∀ i, i < 16 → (fun i : Nat => i) i ≤ 15) ∧
    generateClientId (fun i => i) = "ofx_client_0123456789abcdef".toList ∧
    (generateClientId (fun i => i)).length = 27 :=
  ⟨fun i hi => by show i ≤ 15; omega, by decide,
    (generateClientId_format (fun i => i) (fun i hi => by show i ≤ 15; omega)).2.2.2.2.1⟩

/-! ## C13: the directory configuration -/

/-- C13: for every string `p` (no check is made of it), after
`setInputDirectory(p)` `getInputDirectory()` returns exactly `p` and the output
directory is unchanged, and after `setOutputDirectory(p)`
`getOutputDirectory()` returns exactly `p` and the input directory is
unchanged; neither call touches the server address or the client id. -/
theorem directory_configuration (c : Client) (p : Str) :
    (c.setInputDirectory p).getInputDirectory = p ∧
    (c.setInputDirectory p).getOutputDirectory = c.getOutputDirectory ∧
    (c.setOutputDirectory p).getOutputDirectory = p ∧
    (c.setOutputDirectory p).getInputDirectory = c.getInputDirectory ∧
    (c.setInputDirectory p).getServerAddress = c.getServerAddress ∧
    (c.setOutputDirectory p).getServerAddress = c.getServerAddress ∧
    (c.setInputDirectory p).getClientId = c.getClientId ∧
    (c.setOutputDirectory p).getClientId = c.getClientId :=
  ⟨rfl, rfl, rfl, rfl, rfl, rfl, rfl, rfl⟩

end ComfyUI
